import Mathlib

/-!
Verification of the client-side message-synchronization engine of the
chat client (`src/App.tsx`, hook `useChatConnection`, and `src/types.ts`).

The stateful React hook is embedded shallowly: each socket handler and
dispatcher callback becomes a pure function from the relevant state
(`messages : List Message`, `chats : List Chat`, the active chat id, the
current time, and the random values the source draws) to the updated
state, plus the list of events emitted on the socket.  Timestamps are
`Int` (JS epoch milliseconds); randomness is passed in as parameters.
-/

namespace ChatClient

/-- `Message` from `src/types.ts`.  `reactions` (a JS record from emoji to
usernames) is an association list preserving insertion order. -/
structure Message where
  id : String
  text : String
  sender : String
  timestamp : Int
  isMe : Bool
  isSystem : Bool
  messageType : Option String := none
  mediaUrl : Option String := none
  mediaType : Option String := none
  mediaDuration : Option Int := none
  fileName : Option String := none
  fileSize : Option Int := none
  updatedAt : Option Int := none
  replyToId : Option String := none
  chatId : Option String := none
  reactions : List (String × List String) := []
  isForwarded : Option Bool := none
  forwardedFrom : Option String := none
  deriving Repr, DecidableEq

/-- `Chat` from `src/types.ts`. -/
structure Chat where
  id : String
  name : String
  description : Option String := none
  lastMessageAt : Option Int := none
  createdAt : Int := 0
  deriving Repr, DecidableEq

/-- Payload of the inbound socket `message` event
(`newSocket.on('message', data => ...)`, `src/App.tsx`).  `createdAt` is
the parsed epoch value of the wire string. -/
structure MessageEvent where
  id : Option String := none
  tempId : Option String := none
  user : Option String := none
  username : Option String := none
  text : String
  createdAt : Option Int := none
  messageType : Option String := none
  mediaUrl : Option String := none
  mediaType : Option String := none
  mediaDuration : Option Int := none
  fileName : Option String := none
  fileSize : Option Int := none
  replyToId : Option String := none
  chatId : Option String := none
  isForwarded : Option Bool := none
  forwardedFrom : Option String := none
  deriving Repr, DecidableEq

/-- JS `String.prototype.trim`, over the character list. -/
def jsTrim (s : String) : String :=
  String.mk (((s.data.dropWhile Char.isWhitespace).reverse.dropWhile Char.isWhitespace).reverse)

/-- JS `String.prototype.toLowerCase` (ASCII, which covers the usernames
compared here). -/
def jsToLower (s : String) : String := String.mk (s.data.map Char.toLower)

/-- JS `String.prototype.toUpperCase` (ASCII). -/
def jsToUpper (s : String) : String := String.mk (s.data.map Char.toUpper)

/-- JS `String.prototype.includes` for a single character. -/
def strContains (s : String) (c : Char) : Bool := s.data.contains c

/-- JS `a || b` on two optional strings: an absent or empty string is
falsy and falls through to `b`. -/
def jsOrStr (a b : Option String) : Option String :=
  match a with
  | some s => if s = "" then b else some s
  | none => b

/-- `(x || '').trim().toLowerCase()` — the normalization applied to the
event's sender and the current username at the top of the handler. -/
def normalizeName (s : String) : String := jsToLower (jsTrim s)

/-- `data.user || data.username` — the event's effective sender. -/
def eventSender (d : MessageEvent) : Option String :=
  jsOrStr d.user d.username

/-- `isFromMe`: the event's normalized sender equals the normalized
current username (`src/App.tsx` lines 235–237). -/
def isFromMe (currentUsername : String) (d : MessageEvent) : Bool :=
  normalizeName ((eventSender d).getD "") == normalizeName currentUsername

/-- The per-entry match condition of the reconciliation map
(`msg.id === data.tempId || (isFromMe && msg.text === data.text &&
!msg.id.includes('-'))`, line 251). -/
def echoMatches (fromMe : Bool) (d : MessageEvent) (m : Message) : Bool :=
  (match d.tempId with
   | some t => m.id == t
   | none => false)
  || (fromMe && m.text == d.text && !(strContains m.id '-'))

/-- The in-place rewrite applied to a matched entry (lines 253–258).
`data.id!` is a TS non-null assertion; an absent id keeps the old one
(the handlers below are only invoked on events carrying the server id).
`data.createdAt ? ... : msg.timestamp` keeps the old timestamp when the
event has none; `replyToId` is overwritten with the event's value. -/
def applyEcho (d : MessageEvent) (m : Message) : Message :=
  { m with
    id := d.id.getD m.id
    timestamp := d.createdAt.getD m.timestamp
    replyToId := d.replyToId }

/-- Whether the event is blocked by the client-side isolation check
(`data.chatId && activeChatIdRef.current && data.chatId !==
activeChatIdRef.current`, lines 243 and 288). -/
def isolationBlocked (activeChatId : Option String) (d : MessageEvent) : Bool :=
  match d.chatId, activeChatId with
  | some c, some a => c != a
  | _, _ => false

/-- `findIndex` + `splice` + unshift: remove the first chat whose id is
`cid`, stamp its `lastMessageAt`, and cons it to the front; if no chat
matches, the directory is unchanged (lines 313–324, 467–477, 549–559). -/
def extractChat (cid : String) : List Chat → Option (Chat × List Chat)
  | [] => none
  | c :: cs =>
    if c.id == cid then some (c, cs)
    else
      match extractChat cid cs with
      | none => none
      | some (f, rest) => some (f, c :: rest)

def moveChatToFront (cid : String) (ts : Int) (chats : List Chat) : List Chat :=
  match extractChat cid chats with
  | none => chats
  | some (f, rest) => { f with lastMessageAt := some ts } :: rest

/-- The appended remote message (lines 293–311).  The sender falls back
to `""` when the event carries none (`data.user || data.username` is
undefined in the source); the id falls back to the fresh random value. -/
def mkRemoteMessage (currentTime : Int) (freshId : String) (d : MessageEvent) : Message :=
  { id := d.id.getD freshId
    text := d.text
    sender := (eventSender d).getD ""
    timestamp := d.createdAt.getD currentTime
    isMe := false
    isSystem := false
    messageType := d.messageType
    mediaUrl := d.mediaUrl
    mediaType := d.mediaType
    mediaDuration := d.mediaDuration
    fileName := d.fileName
    fileSize := d.fileSize
    replyToId := d.replyToId
    chatId := d.chatId
    isForwarded := d.isForwarded
    forwardedFrom := d.forwardedFrom }

/-- The remote-insert step: the `setMessages` functional update of lines
269–327 (id-based dedup, 10-second content dedup, second isolation
check, then append and move the owning chat to the directory front). -/
def remoteInsert (currentTime : Int) (freshId : String)
    (activeChatId : Option String) (d : MessageEvent)
    (msgs : List Message) (chats : List Chat) : List Message × List Chat :=
  if (match d.id with
      | some i => msgs.any (fun m => m.id == i)
      | none => false) then
    (msgs, chats)
  else
    let recentTime := currentTime - 10000
    let isDup := msgs.any (fun m =>
      m.text == d.text
      && (match eventSender d with
          | some s => m.sender == s
          | none => false)
      && decide (m.timestamp > recentTime)
      && !m.isSystem)
    if isDup then (msgs, chats)
    else if isolationBlocked activeChatId d then (msgs, chats)
    else
      let newMsg := mkRemoteMessage currentTime freshId d
      (msgs ++ [newMsg],
       match d.chatId with
       | some c => moveChatToFront c newMsg.timestamp chats
       | none => chats)

/-- The whole `message` handler (lines 217–328): early isolation check,
echo reconciliation when the event carries a correlation token or is
from the current user, otherwise (or when nothing matched) the
remote-insert step. -/
def handleMessage (currentUsername : String) (activeChatId : Option String)
    (currentTime : Int) (freshId : String) (d : MessageEvent)
    (msgs : List Message) (chats : List Chat) : List Message × List Chat :=
  let fromMe := isFromMe currentUsername d
  if isolationBlocked activeChatId d then (msgs, chats)
  else if d.tempId.isSome || fromMe then
    let msgs' := msgs.map (fun m => if echoMatches fromMe d m then applyEcho d m else m)
    if msgs.any (echoMatches fromMe d) then (msgs', chats)
    else remoteInsert currentTime freshId activeChatId d msgs' chats
  else remoteInsert currentTime freshId activeChatId d msgs chats

/-! ### Optimistic id generation and local inserts -/

/-- The base-36 digit alphabet used by JS `Number.prototype.toString(36)`. -/
def base36Char (digit : Fin 36) : Char :=
  "0123456789abcdefghijklmnopqrstuvwxyz".toList.getD digit.val 'x'

/-- Characters of `Math.random().toString(36)`: a value in `[0,1)` prints
as `"0"` when it is exactly zero, otherwise `"0."` followed by base-36
fraction digits.  The digit sequence is the randomness parameter. -/
def mathRandomChars (digits : List (Fin 36)) : List Char :=
  match digits with
  | [] => ['0']
  | _ => '0' :: '.' :: digits.map base36Char

/-- `Math.random().toString(36).substring(7)` — the locally generated
optimistic id (`addMessage` line 154, `sendMediaMessage` line 507). -/
def genOptimisticId (digits : List (Fin 36)) : String :=
  String.mk ((mathRandomChars digits).drop 7)

/-- The record built by `addMessage` (lines 153–166). -/
def optimisticMessage (id : String) (now : Int) (text sender : String)
    (isMe isSystem : Bool) (replyToId : Option String) : Message :=
  { id := id, text := text, sender := sender, timestamp := now,
    isMe := isMe, isSystem := isSystem, replyToId := replyToId }

/-- `addMessage` (lines 153–166): append a new message with a fresh
random id and the current time; returns the generated id. -/
def addMessage (digits : List (Fin 36)) (now : Int) (text sender : String)
    (isMe isSystem : Bool) (replyToId : Option String)
    (msgs : List Message) : List Message × String :=
  let id := genOptimisticId digits
  (msgs ++ [optimisticMessage id now text sender isMe isSystem replyToId], id)

/-- A system notice as produced by `addMessage(text, "System", false, true)`. -/
def systemNotice (digits : List (Fin 36)) (now : Int) (text : String) : Message :=
  optimisticMessage (genOptimisticId digits) now text "System" false true none

/-! ### Action dispatcher -/

/-- Events emitted on the socket by the dispatcher callbacks. -/
inductive Outbound where
  | message (user : String) (text : String) (tempId : Option String)
      (replyToId : Option String) (chatId : Option String)
  | mediaMessage (user : String) (text : String) (tempId : String)
      (mediaUrl : String) (chatId : Option String)
  | editMessage (id : String) (text : String)
  | deleteMessage (id : String)
  | toggleReaction (messageId : String) (emoji : String) (username : String)
  | createChat (name : String) (description : Option String)
  | forward (user : String) (text : String) (chatId : String) (forwardedFrom : String)
  deriving Repr, DecidableEq

/-- `settingsRef.current.username?.trim() || 'Anonymous'`. -/
def effectiveUsername (settingsUsername : String) : String :=
  if jsTrim settingsUsername = "" then "Anonymous" else jsTrim settingsUsername

/-- `sendMessage` (lines 417–488).  The randomness for the optimistic id
and for a possible notice id are parameters; the demo-mode simulated
reply is a later timer event and not part of this step.  Returns the
updated messages, chats, and emitted events. -/
def sendMessage (demo connected : Bool) (settingsUsername : String)
    (activeChatId : Option String) (now : Int)
    (tempDigits noticeDigits : List (Fin 36))
    (text : String) (replyToId : Option String)
    (msgs : List Message) (chats : List Chat) :
    List Message × List Chat × List Outbound :=
  let trimmedText := jsTrim text
  if trimmedText = "" then (msgs, chats, [])
  else
    let username := effectiveUsername settingsUsername
    -- optimistic insert, unconditional (line 437)
    let (msgs1, tempId) := addMessage tempDigits now trimmedText username true false replyToId msgs
    if demo then (msgs1, chats, [])
    else if connected then
      -- the double-check `!messageData.text || !messageData.user` (line 456)
      if trimmedText = "" ∨ username = "" then
        (msgs1 ++ [systemNotice noticeDigits now "Error: Invalid message format"], chats, [])
      else
        (msgs1,
         (match activeChatId with
          | some c => moveChatToFront c now chats
          | none => chats),
         [Outbound.message username trimmedText (some tempId) replyToId activeChatId])
    else
      (msgs1 ++ [systemNotice noticeDigits now "Message not sent: Disconnected"], chats, [])

/-- The upload descriptor consumed by `sendMediaMessage`. -/
structure UploadData where
  messageType : String
  mediaUrl : String
  mediaType : String
  fileName : String
  fileSize : Int
  mediaDuration : Option Int := none
  deriving Repr, DecidableEq

/-- `caption || \x7b[KIND] filename\x7d` — empty captions are falsy. -/
def mediaCaption (upload : UploadData) (caption : Option String) : String :=
  match caption with
  | some c => if c = "" then "[" ++ jsToUpper upload.messageType ++ "] " ++ upload.fileName else c
  | none => "[" ++ jsToUpper upload.messageType ++ "] " ++ upload.fileName

/-- The optimistic local record of `sendMediaMessage` (lines 508–522). -/
def mediaLocalMessage (tempId : String) (now : Int) (username messageText : String)
    (upload : UploadData) (replyToId : Option String) : Message :=
  { id := tempId, text := messageText, sender := username, timestamp := now,
    isMe := true, isSystem := false,
    messageType := some upload.messageType, mediaUrl := some upload.mediaUrl,
    mediaType := some upload.mediaType, fileName := some upload.fileName,
    fileSize := some upload.fileSize, mediaDuration := upload.mediaDuration,
    replyToId := replyToId }

/-- `sendMediaMessage` (lines 495–564). -/
def sendMediaMessage (demo connected : Bool) (settingsUsername : String)
    (activeChatId : Option String) (now : Int)
    (tempDigits noticeDigits : List (Fin 36))
    (upload : UploadData) (replyToId : Option String) (caption : Option String)
    (msgs : List Message) (chats : List Chat) :
    List Message × List Chat × List Outbound :=
  let username := effectiveUsername settingsUsername
  let messageText := mediaCaption upload caption
  let tempId := genOptimisticId tempDigits
  let msgs1 := msgs ++ [mediaLocalMessage tempId now username messageText upload replyToId]
  if demo then (msgs1, chats, [])
  else if connected then
    (msgs1,
     (match activeChatId with
      | some c => moveChatToFront c now chats
      | none => chats),
     [Outbound.mediaMessage username messageText tempId upload.mediaUrl activeChatId])
  else
    (msgs1 ++ [systemNotice noticeDigits now "Media not sent: Disconnected"], chats, [])

/-- `editMessage` (lines 566–577): a silent no-op when not connected,
otherwise an optimistic in-place rewrite plus emission. -/
def editMessage (connected : Bool) (now : Int) (id newText : String)
    (msgs : List Message) (chats : List Chat) :
    List Message × List Chat × List Outbound :=
  if !connected then (msgs, chats, [])
  else
    (msgs.map (fun m => if m.id == id then { m with text := newText, updatedAt := some now } else m),
     chats,
     [Outbound.editMessage id newText])

/-- `deleteMessage` (lines 579–586): a silent no-op when not connected. -/
def deleteMessage (connected : Bool) (id : String)
    (msgs : List Message) (chats : List Chat) :
    List Message × List Chat × List Outbound :=
  if !connected then (msgs, chats, [])
  else (msgs.filter (fun m => m.id != id), chats, [Outbound.deleteMessage id])

/-- `createChat` (lines 588–591): a silent no-op when not connected;
no local directory change on success (the entry arrives via
`chatCreated`). -/
def createChat (connected : Bool) (name : String) (description : Option String)
    (msgs : List Message) (chats : List Chat) :
    List Message × List Chat × List Outbound :=
  if !connected then (msgs, chats, [])
  else (msgs, chats, [Outbound.createChat name description])

/-- The reaction-record update of `toggleReaction`: remove the current
user from the emoji's reactor list if present, else append; drop the
emoji key when its reactor list empties. -/
def toggleReactionMap (emoji username : String)
    (reactions : List (String × List String)) : List (String × List String) :=
  let currentReactors := ((reactions.find? (fun p => p.1 == emoji)).map Prod.snd).getD []
  let newReactors :=
    if currentReactors.contains username then currentReactors.filter (fun u => u != username)
    else currentReactors ++ [username]
  if newReactors.isEmpty then reactions.filter (fun p => p.1 != emoji)
  else if reactions.any (fun p => p.1 == emoji) then
    reactions.map (fun p => if p.1 == emoji then (p.1, newReactors) else p)
  else reactions ++ [(emoji, newReactors)]

/-- `toggleReaction` (lines 593–617): a silent no-op when not connected. -/
def toggleReaction (connected : Bool) (settingsUsername : String)
    (messageId emoji : String) (msgs : List Message) (chats : List Chat) :
    List Message × List Chat × List Outbound :=
  if !connected then (msgs, chats, [])
  else
    (msgs.map (fun m =>
       if m.id == messageId then { m with reactions := toggleReactionMap emoji settingsUsername m.reactions }
       else m),
     chats,
     [Outbound.toggleReaction messageId emoji settingsUsername])

/-- `forwardMessage` (lines 619–640): a silent no-op when not connected;
no local state change, only an emission targeting the other chat. -/
def forwardMessage (connected : Bool) (settingsUsername : String)
    (message : Message) (targetChatId : String)
    (msgs : List Message) (chats : List Chat) :
    List Message × List Chat × List Outbound :=
  if !connected then (msgs, chats, [])
  else (msgs, chats, [Outbound.forward settingsUsername message.text targetChatId message.sender])

/-! ### History load -/

/-- A row of `GET /api/messages` (`DbMessage`, lines 87–103);
`createdAt` is the parsed epoch value. -/
structure DbMessage where
  id : String
  username : String
  content : String
  createdAt : Int
  messageType : Option String := none
  mediaUrl : Option String := none
  mediaType : Option String := none
  mediaDuration : Option Int := none
  fileName : Option String := none
  fileSize : Option Int := none
  replyToId : Option String := none
  chatId : Option String := none
  reactions : Option (List (String × List String)) := none
  isForwarded : Option Bool := none
  forwardedFrom : Option String := none
  deriving Repr, DecidableEq

/-- The per-row conversion inside `loadHistory` (lines 383–401); note
`isMe` compares the raw strings exactly (`dbMsg.username ===
settings.username`). -/
def dbToMessage (settingsUsername : String) (dbMsg : DbMessage) : Message :=
  { id := dbMsg.id
    text := dbMsg.content
    sender := dbMsg.username
    timestamp := dbMsg.createdAt
    isMe := dbMsg.username == settingsUsername
    isSystem := false
    messageType := dbMsg.messageType
    mediaUrl := dbMsg.mediaUrl
    mediaType := dbMsg.mediaType
    mediaDuration := dbMsg.mediaDuration
    fileName := dbMsg.fileName
    fileSize := dbMsg.fileSize
    replyToId := dbMsg.replyToId
    chatId := dbMsg.chatId
    reactions := dbMsg.reactions.getD []
    isForwarded := dbMsg.isForwarded
    forwardedFrom := dbMsg.forwardedFrom }

/-- The continuation of `loadHistory` once the response arrives (lines
380–402): reverse the newest-first rows, convert, and replace the log
wholesale.  The source performs no re-validation of the active chat at
this point, so the previous log is discarded unconditionally. -/
def applyHistoryResult (settingsUsername : String) (dbMessages : List DbMessage)
    (_prevMessages : List Message) : List Message :=
  (dbMessages.reverse).map (dbToMessage settingsUsername)

/-! ## Theorems -/

/-- C4: For every inbound event carrying a conversation identity
different from the currently active conversation, processing the event
leaves the active conversation's message log (and the directory)
completely unchanged. -/
theorem c4_conversation_isolation (currentUsername : String) (a c : String)
    (currentTime : Int) (freshId : String) (d : MessageEvent)
    (msgs : List Message) (chats : List Chat)
    (hc : d.chatId = some c) (hne : c ≠ a) :
    handleMessage currentUsername (some a) currentTime freshId d msgs chats = (msgs, chats) := by
  have hblock : isolationBlocked (some a) d = true := by
    simp [isolationBlocked, hc, hne]
  simp [handleMessage, hblock]

/-- Witness for C4 at a concrete input: an event tagged for chat `"B"`
while chat `"A"` is active changes nothing. -/
theorem c4_conversation_isolation_witness :
    handleMessage "alice" (some "A") 50 "f0"
      { id := some "srv-9", user := some "bob", text := "yo", chatId := some "B" }
      [{ id := "m0", text := "hi", sender := "alice", timestamp := 0, isMe := true, isSystem := false }]
      [{ id := "A", name := "Chat A" }] =
    ([{ id := "m0", text := "hi", sender := "alice", timestamp := 0, isMe := true, isSystem := false }],
     [{ id := "A", name := "Chat A" }]) :=
  c4_conversation_isolation "alice" "A" "B" 50 "f0" _ _ _ rfl (by decide)

/-- C3: the remote-insert step is idempotent in the authoritative id — an
inbound message whose id already occurs in the log leaves the log (and
the directory) unchanged; the same holds for the whole handler when the
event carries no correlation token and is not from the current user. -/
theorem c3_idempotent_remote_delivery (currentTime : Int) (freshId : String)
    (activeChatId : Option String) (currentUsername : String)
    (d : MessageEvent) (msgs : List Message) (chats : List Chat) (i : String)
    (hid : d.id = some i) (hmem : ∃ m ∈ msgs, m.id = i) :
    remoteInsert currentTime freshId activeChatId d msgs chats = (msgs, chats) ∧
    (d.tempId = none → isFromMe currentUsername d = false →
      handleMessage currentUsername activeChatId currentTime freshId d msgs chats = (msgs, chats)) := by
  have hany : msgs.any (fun m => m.id == i) = true := by
    obtain ⟨m, hm, hmi⟩ := hmem
    exact List.any_eq_true.mpr ⟨m, hm, by simp [hmi]⟩
  have hri : remoteInsert currentTime freshId activeChatId d msgs chats = (msgs, chats) := by
    simp [remoteInsert, hid, hany]
  refine ⟨hri, fun htemp hfrom => ?_⟩
  by_cases hblock : isolationBlocked activeChatId d = true
  · simp [handleMessage, hblock]
  · simp only [Bool.not_eq_true] at hblock
    simp [handleMessage, hblock, htemp, hfrom, hri]

/-- The re-delivered message of the C3 witness. -/
def msgSrv7 : Message :=
  { id := "srv-7", text := "hey", sender := "bob", timestamp := 900, isMe := false, isSystem := false }

/-- The re-delivery event of the C3 witness. -/
def evSrv7 : MessageEvent := { id := some "srv-7", user := some "bob", text := "hey" }

/-- Witness for C3: re-delivering id `"srv-7"` into a log already
holding it changes nothing. -/
theorem c3_idempotent_remote_delivery_witness :
    remoteInsert 1000 "f1" none evSrv7 [msgSrv7] [] = ([msgSrv7], []) ∧
    (evSrv7.tempId = none → isFromMe "alice" evSrv7 = false →
      handleMessage "alice" none 1000 "f1" evSrv7 [msgSrv7] [] = ([msgSrv7], [])) :=
  c3_idempotent_remote_delivery 1000 "f1" none "alice" evSrv7 [msgSrv7] [] "srv-7" rfl
    ⟨msgSrv7, by decide, rfl⟩

/-- C1: an inbound message event carrying the correlation token of an
optimistic entry rewrites that entry's id and timestamp to the
server-supplied values in place, at its original position; the log
length is unchanged (so no second entry is appended) and the directory
is untouched. -/
theorem c1_optimistic_reconciliation (currentUsername : String) (active : Option String)
    (currentTime : Int) (freshId : String) (d : MessageEvent)
    (msgs : List Message) (chats : List Chat) (T sid : String) (ts : Int)
    (hiso : isolationBlocked active d = false)
    (htemp : d.tempId = some T)
    (hid : d.id = some sid)
    (hct : d.createdAt = some ts)
    (hmem : ∃ m ∈ msgs, m.id = T) :
    (handleMessage currentUsername active currentTime freshId d msgs chats).2 = chats ∧
    (handleMessage currentUsername active currentTime freshId d msgs chats).1.length = msgs.length ∧
    (∀ (i : Nat) (m : Message), msgs[i]? = some m → m.id = T →
      (handleMessage currentUsername active currentTime freshId d msgs chats).1[i]? =
        some { m with id := sid, timestamp := ts, replyToId := d.replyToId }) := by
  have hany : msgs.any (echoMatches (isFromMe currentUsername d) d) = true := by
    obtain ⟨m, hm, hmi⟩ := hmem
    exact List.any_eq_true.mpr ⟨m, hm, by simp [echoMatches, htemp, hmi]⟩
  have hres : handleMessage currentUsername active currentTime freshId d msgs chats =
      (msgs.map (fun m => if echoMatches (isFromMe currentUsername d) d m then applyEcho d m else m),
       chats) := by
    simp [handleMessage, hiso, htemp, hany]
  refine ⟨by rw [hres], by rw [hres]; simp, fun i m hm hmi => ?_⟩
  rw [hres]
  have hmatch : echoMatches (isFromMe currentUsername d) d m = true := by
    simp [echoMatches, htemp, hmi]
  simp [List.getElem?_map, hm, hmatch, applyEcho, hid, hct]

/-- The optimistic entry of the C1 witness. -/
def msgTmp1 : Message :=
  { id := "tmp1", text := "hi", sender := "alice", timestamp := 10, isMe := true, isSystem := false }

/-- The token-carrying echo of the C1 witness. -/
def evEcho1 : MessageEvent :=
  { id := some "srv-42", tempId := some "tmp1", user := some "alice", text := "hi",
    createdAt := some 5000 }

/-- Witness for C1: the echo with token `"tmp1"` rewrites the single
optimistic entry to id `"srv-42"` and timestamp `5000` in place. -/
theorem c1_optimistic_reconciliation_witness :
    (handleMessage "alice" none 100 "fz" evEcho1 [msgTmp1] []).2 = [] ∧
    (handleMessage "alice" none 100 "fz" evEcho1 [msgTmp1] []).1.length = [msgTmp1].length ∧
    (∀ (i : Nat) (m : Message), [msgTmp1][i]? = some m → m.id = "tmp1" →
      (handleMessage "alice" none 100 "fz" evEcho1 [msgTmp1] []).1[i]? =
        some { m with id := "srv-42", timestamp := 5000, replyToId := evEcho1.replyToId }) :=
  c1_optimistic_reconciliation "alice" none 100 "fz" evEcho1 [msgTmp1] [] "tmp1" "srv-42" 5000
    rfl rfl rfl rfl ⟨msgTmp1, by decide, rfl⟩

/-- The log entry of the C2 counterexample: a locally originated message
of the current user `"Alice"`, body `"hi"`, non-server-looking id. -/
def c2Entry : Message :=
  { id := "abc", text := "hi", sender := "Alice", timestamp := 0, isMe := true, isSystem := false }

/-- The tokenless event of the C2 counterexample: same body `"hi"`, but
sent by `"Bob"`. -/
def c2Event : MessageEvent :=
  { id := some "srv-1", user := some "Bob", text := "hi", createdAt := some 99995000 }

/-- Counterexample to C2 as stated: the log holds an entry whose sender
equals the current identity (`"Alice"`), whose body equals the incoming
body exactly, and whose id does not look server-issued — yet the
tokenless event is appended as a new entry and the existing entry is
left untouched, because the source checks the *event's* sender against
the current identity, never the entry's sender. -/
theorem c2_fallback_reconciliation_counterexample :
    (handleMessage "Alice" none 100000000 "f9" c2Event [c2Entry] []).1.length = 2 ∧
    (handleMessage "Alice" none 100000000 "f9" c2Event [c2Entry] []).1[0]? = some c2Entry := by
  decide

/-- C2 (amended): for a tokenless inbound event *whose own sender*
equals the current identity (case/whitespace-insensitively), any entry
with exactly the incoming body and a non-server-looking id is
reconciled in place (the entry's own sender is not consulted); when no
entry has the incoming body (and the server id is fresh), a new entry
is appended instead. -/
theorem c2_fallback_reconciliation_amended (currentUsername : String)
    (active : Option String) (currentTime : Int) (freshId : String)
    (d : MessageEvent) (msgs : List Message) (chats : List Chat) (sid : String) (ts : Int)
    (hiso : isolationBlocked active d = false)
    (htemp : d.tempId = none)
    (hfrom : isFromMe currentUsername d = true)
    (hid : d.id = some sid)
    (hct : d.createdAt = some ts) :
    ((∃ m ∈ msgs, m.text = d.text ∧ strContains m.id '-' = false) →
      (handleMessage currentUsername active currentTime freshId d msgs chats).2 = chats ∧
      (handleMessage currentUsername active currentTime freshId d msgs chats).1.length = msgs.length ∧
      (∀ (i : Nat) (m : Message), msgs[i]? = some m → m.text = d.text →
        strContains m.id '-' = false →
        (handleMessage currentUsername active currentTime freshId d msgs chats).1[i]? =
          some { m with id := sid, timestamp := ts, replyToId := d.replyToId })) ∧
    ((∀ m ∈ msgs, m.text ≠ d.text) → (∀ m ∈ msgs, m.id ≠ sid) →
      (handleMessage currentUsername active currentTime freshId d msgs chats).1 =
        msgs ++ [mkRemoteMessage currentTime freshId d]) := by
  constructor
  · intro hex
    have hanyP : ∃ x ∈ msgs, echoMatches true d x = true := by
      obtain ⟨m, hm, hmt, hmh⟩ := hex
      exact ⟨m, hm, by simp [echoMatches, htemp, hmt, hmh]⟩
    have hres : handleMessage currentUsername active currentTime freshId d msgs chats =
        (msgs.map (fun m => if echoMatches true d m then applyEcho d m else m),
         chats) := by
      simp [handleMessage, hiso, htemp, hfrom, hanyP]
    refine ⟨by rw [hres], by rw [hres]; simp, fun i m hm hmt hmh => ?_⟩
    rw [hres]
    have hmatch : echoMatches true d m = true := by
      simp [echoMatches, htemp, hmt, hmh]
    simp [List.getElem?_map, hm, hmatch, applyEcho, hid, hct]
  · intro hno hfresh
    have hnomatch : ∀ m ∈ msgs, echoMatches true d m = false := by
      intro m hm
      simp [echoMatches, htemp, hno m hm]
    have hnoP : ¬ ∃ x ∈ msgs, echoMatches true d x = true := by
      rintro ⟨m, hm, hx⟩
      rw [hnomatch m hm] at hx
      cases hx
    have hmapid : msgs.map (fun m =>
        if echoMatches true d m then applyEcho d m else m) = msgs := by
      conv_rhs => rw [← List.map_id msgs]
      exact List.map_congr_left (fun m hm => by simp [hnomatch m hm])
    have hres : handleMessage currentUsername active currentTime freshId d msgs chats =
        remoteInsert currentTime freshId active d msgs chats := by
      simp [handleMessage, hiso, htemp, hfrom, hnoP, hmapid]
    have hidany : msgs.any (fun m => m.id == sid) = false := by
      rw [List.any_eq_false]
      intro m hm
      simp [hfresh m hm]
    have hdupany : msgs.any (fun m =>
        m.text == d.text
        && (match eventSender d with
            | some s => m.sender == s
            | none => false)
        && decide (m.timestamp > currentTime - 10000)
        && !m.isSystem) = false := by
      rw [List.any_eq_false]
      intro m hm
      simp [hno m hm]
    rw [hres]
    simp [remoteInsert, hid, hidany, hdupany, hiso]

/-- The log entry of the C2 witness: an optimistic entry of `"Alice"`
with body `"hi"` and a non-server-looking id. -/
def msgTmp2 : Message :=
  { id := "xyz", text := "hi", sender := "Alice", timestamp := 3, isMe := true, isSystem := false }

/-- The tokenless echo of the C2 witness, sent by `" ALICE "` (the
current user up to case and whitespace). -/
def evNoTok : MessageEvent :=
  { id := some "srv-2", user := some " ALICE ", text := "hi", createdAt := some 777 }

/-- Witness for the amended C2: the tokenless echo from the current user
reconciles the optimistic entry in place. -/
theorem c2_fallback_reconciliation_witness :
    (handleMessage "Alice" none 100 "fw" evNoTok [msgTmp2] []).1[0]? =
      some { msgTmp2 with id := "srv-2", timestamp := 777, replyToId := evNoTok.replyToId } :=
  ((c2_fallback_reconciliation_amended "Alice" none 100 "fw" evNoTok [msgTmp2] [] "srv-2" 777
      rfl rfl (by decide) rfl rfl).1
    ⟨msgTmp2, by decide, rfl, rfl⟩).2.2 0 msgTmp2 (by decide) rfl rfl

/-- The id-based dedup guard of the remote-insert step evaluates to
`false` when the event's id is not already present in the log. -/
theorem idDedup_eq_false (d : MessageEvent) (msgs : List Message)
    (hid : ∀ m ∈ msgs, d.id ≠ some m.id) :
    (match d.id with
      | some i => msgs.any (fun m => m.id == i)
      | none => false) = false := by
  cases h : d.id with
  | none => rfl
  | some i =>
    rw [List.any_eq_false]
    intro m hm
    simp only [beq_iff_eq]
    intro hmi
    exact hid m hm (by rw [h, hmi])

/-- The per-entry content-duplicate test of the remote-insert step,
characterized propositionally. -/
theorem contentDupBody_iff (currentTime : Int) (d : MessageEvent) (m : Message) :
    (m.text == d.text
     && (match eventSender d with
         | some s => m.sender == s
         | none => false)
     && decide (m.timestamp > currentTime - 10000)
     && !m.isSystem) = true ↔
    (m.text = d.text ∧ eventSender d = some m.sender ∧
     m.timestamp > currentTime - 10000 ∧ m.isSystem = false) := by
  cases hs : eventSender d with
  | none => simp
  | some s =>
    simp only [hs, Bool.and_eq_true, beq_iff_eq, decide_eq_true_iff,
      Bool.not_eq_true', Option.some.injEq, and_assoc]
    constructor
    · rintro ⟨h1, h2, h3, h4⟩
      exact ⟨h1, h2.symm, h3, h4⟩
    · rintro ⟨h1, h2, h3, h4⟩
      exact ⟨h1, h2.symm, h3, h4⟩

/-- The content-duplicate scan evaluates to `false` when no entry
matches body, sender, window and non-system flag together. -/
theorem contentDup_any_eq_false (currentTime : Int) (d : MessageEvent) (msgs : List Message)
    (hno : ∀ m ∈ msgs, ¬(m.text = d.text ∧ eventSender d = some m.sender ∧
        m.timestamp > currentTime - 10000 ∧ m.isSystem = false)) :
    msgs.any (fun m =>
      m.text == d.text
      && (match eventSender d with
          | some s => m.sender == s
          | none => false)
      && decide (m.timestamp > currentTime - 10000)
      && !m.isSystem) = false := by
  rw [List.any_eq_false]
  intro m hm htrue
  exact hno m hm ((contentDupBody_iff currentTime d m).mp htrue)

/-- C5: a remote insert whose id is not already present is rejected
exactly when the log holds a non-system entry with the same body, the
same sender, and a timestamp newer than 10 seconds before the current
time; otherwise (for an event passing the isolation check) it is
appended. -/
theorem c5_content_dedup_window (currentTime : Int) (freshId : String)
    (active : Option String) (d : MessageEvent) (msgs : List Message) (chats : List Chat)
    (hid : ∀ m ∈ msgs, d.id ≠ some m.id) :
    ((∃ m ∈ msgs, m.text = d.text ∧ eventSender d = some m.sender ∧
        m.timestamp > currentTime - 10000 ∧ m.isSystem = false) →
      remoteInsert currentTime freshId active d msgs chats = (msgs, chats)) ∧
    ((∀ m ∈ msgs, ¬(m.text = d.text ∧ eventSender d = some m.sender ∧
        m.timestamp > currentTime - 10000 ∧ m.isSystem = false)) →
      isolationBlocked active d = false →
      (remoteInsert currentTime freshId active d msgs chats).1 =
        msgs ++ [mkRemoteMessage currentTime freshId d]) := by
  have hidany := idDedup_eq_false d msgs hid
  constructor
  · rintro ⟨m, hm, hP⟩
    have hdupany : msgs.any (fun m =>
        m.text == d.text
        && (match eventSender d with
            | some s => m.sender == s
            | none => false)
        && decide (m.timestamp > currentTime - 10000)
        && !m.isSystem) = true :=
      List.any_eq_true.mpr ⟨m, hm, (contentDupBody_iff currentTime d m).mpr hP⟩
    simp [remoteInsert, hidany, hdupany]
  · intro hno hiso
    have hdupany := contentDup_any_eq_false currentTime d msgs hno
    simp [remoteInsert, hidany, hdupany, hiso]

/-- The recent same-content entry of the C5 witness. -/
def msgDup : Message :=
  { id := "m7", text := "hey", sender := "bob", timestamp := 5000, isMe := false, isSystem := false }

/-- The freshly-identified duplicate delivery of the C5 witness. -/
def evDup : MessageEvent := { id := some "srv-9", user := some "bob", text := "hey" }

/-- Witness for C5: a fresh-id delivery whose body, sender and 10-second
window match an existing entry is rejected. -/
theorem c5_content_dedup_window_witness :
    remoteInsert 10000 "fr" none evDup [msgDup] [] = ([msgDup], []) :=
  (c5_content_dedup_window 10000 "fr" none evDup [msgDup] [] (by decide)).1
    ⟨msgDup, by decide, rfl, rfl, by decide, rfl⟩

/-- A log entry used by the C6 counterexample. -/
def c6Entry : Message :=
  { id := "m1", text := "old", sender := "alice", timestamp := 0, isMe := true, isSystem := false }

/-- Counterexample to C6 as stated: an edit attempted while disconnected
(demo off) leaves the log, the directory and the outbound queue
completely unchanged — no user-visible system notice is appended. -/
theorem c6_disconnected_notice_counterexample :
    editMessage false 5 "m1" "new" [c6Entry] [] = ([c6Entry], [], []) := by decide

/-- C6 (amended): while disconnected with demo mode off, no dispatcher
operation emits anything on the socket; send-text and send-media append
the optimistic entry followed by a terminal system notice, while edit,
delete, react, create-conversation and forward are silent no-ops that
surface no notice at all. -/
theorem c6_disconnected_ops_amended (u : String) (active : Option String) (now : Int)
    (tempDigits noticeDigits : List (Fin 36)) (text : String) (replyToId : Option String)
    (upload : UploadData) (caption : Option String)
    (id newText messageId emoji chatName : String) (description : Option String)
    (fm : Message) (targetChatId : String)
    (msgs : List Message) (chats : List Chat)
    (htext : jsTrim text ≠ "") :
    sendMessage false false u active now tempDigits noticeDigits text replyToId msgs chats =
      (msgs ++ [optimisticMessage (genOptimisticId tempDigits) now (jsTrim text)
                  (effectiveUsername u) true false replyToId,
                systemNotice noticeDigits now "Message not sent: Disconnected"],
       chats, []) ∧
    sendMediaMessage false false u active now tempDigits noticeDigits upload replyToId caption msgs chats =
      (msgs ++ [mediaLocalMessage (genOptimisticId tempDigits) now (effectiveUsername u)
                  (mediaCaption upload caption) upload replyToId,
                systemNotice noticeDigits now "Media not sent: Disconnected"],
       chats, []) ∧
    editMessage false now id newText msgs chats = (msgs, chats, []) ∧
    deleteMessage false id msgs chats = (msgs, chats, []) ∧
    toggleReaction false u messageId emoji msgs chats = (msgs, chats, []) ∧
    createChat false chatName description msgs chats = (msgs, chats, []) ∧
    forwardMessage false u fm targetChatId msgs chats = (msgs, chats, []) := by
  refine ⟨?_, ?_, rfl, rfl, rfl, rfl, rfl⟩
  · simp [sendMessage, addMessage, htext]
  · simp [sendMediaMessage]

/-- Witness for the amended C6 at concrete inputs. -/
theorem c6_disconnected_ops_witness :
    sendMessage false false "alice" none 7 [] [] "hi" none [] [] =
      ([optimisticMessage (genOptimisticId []) 7 (jsTrim "hi")
          (effectiveUsername "alice") true false none,
        systemNotice [] 7 "Message not sent: Disconnected"],
       [], []) ∧
    sendMediaMessage false false "alice" none 7 [] []
        { messageType := "image", mediaUrl := "u", mediaType := "image/png",
          fileName := "f.png", fileSize := 5 } none none [] [] =
      ([mediaLocalMessage (genOptimisticId []) 7 (effectiveUsername "alice")
          (mediaCaption { messageType := "image", mediaUrl := "u", mediaType := "image/png",
                          fileName := "f.png", fileSize := 5 } none)
          { messageType := "image", mediaUrl := "u", mediaType := "image/png",
            fileName := "f.png", fileSize := 5 } none,
        systemNotice [] 7 "Media not sent: Disconnected"],
       [], []) ∧
    editMessage false 7 "m1" "new" [] [] = ([], [], []) ∧
    deleteMessage false "m1" [] [] = ([], [], []) ∧
    toggleReaction false "alice" "m1" "x" [] [] = ([], [], []) ∧
    createChat false "room" none [] [] = ([], [], []) ∧
    forwardMessage false "alice" c6Entry "B" [] [] = ([], [], []) :=
  c6_disconnected_ops_amended "alice" none 7 [] [] "hi" none
    { messageType := "image", mediaUrl := "u", mediaType := "image/png",
      fileName := "f.png", fileSize := 5 } none
    "m1" "new" "m1" "x" "room" none c6Entry "B" [] [] (by decide)

/-- Rows of conversation A's history in the C7 scenario (newest first,
as the API returns them). -/
def dbA1 : DbMessage :=
  { id := "a1", username := "alice", content := "first in A", createdAt := 1, chatId := some "A" }

def dbA2 : DbMessage :=
  { id := "a2", username := "alice", content := "second in A", createdAt := 2, chatId := some "A" }

def historyA : List DbMessage := [dbA2, dbA1]

/-- The log of conversation B, active by the time A's fetch resolves. -/
def logB : List Message :=
  [{ id := "b1", text := "in B", sender := "bob", timestamp := 5, isMe := false,
     isSystem := false, chatId := some "B" }]

/-- C7 fails on the code: the `loadHistory` continuation applies its
result unconditionally — its output is independent of whatever log (and
hence whatever active conversation) it finds on resumption, and at the
concrete failing input A's fetched history replaces B's log. -/
theorem c7_history_applied_without_revalidation :
    (∀ (u : String) (db : List DbMessage) (prev prev' : List Message),
      applyHistoryResult u db prev = applyHistoryResult u db prev') ∧
    applyHistoryResult "alice" historyA logB =
      [dbToMessage "alice" dbA1, dbToMessage "alice" dbA2] ∧
    applyHistoryResult "alice" historyA logB ≠ logB := by
  refine ⟨fun u db prev prev' => rfl, by decide, by decide⟩

/-- The effective username is never empty: either the trimmed setting or
the `"Anonymous"` fallback. -/
theorem effectiveUsername_ne_empty (u : String) : effectiveUsername u ≠ "" := by
  unfold effectiveUsername
  split
  · decide
  · assumption

/-- `findIndex` + `splice` behaviour of `extractChat`: when some chat has
the wanted id, the extraction succeeds, the extracted chat has that id,
and the original directory is a permutation of the extracted chat consed
onto the remainder. -/
theorem extractChat_spec (cid : String) (l : List Chat) (h : ∃ c ∈ l, c.id = cid) :
    ∃ f rest, extractChat cid l = some (f, rest) ∧ f.id = cid ∧ l.Perm (f :: rest) := by
  induction l with
  | nil => simp at h
  | cons c cs ih =>
    by_cases hc : c.id = cid
    · exact ⟨c, cs, by simp [extractChat, hc], hc, List.Perm.refl _⟩
    · have h' : ∃ x ∈ cs, x.id = cid := by
        obtain ⟨x, hx, hxid⟩ := h
        rcases List.mem_cons.mp hx with rfl | hx'
        · exact absurd hxid hc
        · exact ⟨x, hx', hxid⟩
      obtain ⟨f, rest, hext, hfid, hperm⟩ := ih h'
      refine ⟨f, c :: rest, ?_, hfid, ?_⟩
      · simp [extractChat, hc, hext]
      · exact (hperm.cons c).trans (List.Perm.swap f c rest)

/-- C8: moving conversation C to the directory front on an accepted
message is id-permutation-preserving (nothing dropped), puts C first,
keeps C unduplicated, and is exactly the directory update performed by a
connected text send and by an accepted remote insert for C. -/
theorem c8_directory_reordering (cid : String) (ts : Int) (chats : List Chat)
    (hmem : ∃ c ∈ chats, c.id = cid) :
    ((moveChatToFront cid ts chats).map Chat.id).Perm (chats.map Chat.id) ∧
    ((moveChatToFront cid ts chats).head?).map Chat.id = some cid ∧
    ((chats.map Chat.id).count cid = 1 →
      ((moveChatToFront cid ts chats).map Chat.id).count cid = 1) ∧
    (∀ (u : String) (now : Int) (td nd : List (Fin 36)) (text : String)
       (replyToId : Option String) (msgs : List Message),
       jsTrim text ≠ "" →
       (sendMessage false true u (some cid) now td nd text replyToId msgs chats).2.1 =
         moveChatToFront cid now chats) ∧
    (∀ (t : Int) (fresh : String) (active : Option String) (d : MessageEvent)
       (msgs : List Message),
       d.chatId = some cid →
       (∀ m ∈ msgs, d.id ≠ some m.id) →
       (∀ m ∈ msgs, ¬(m.text = d.text ∧ eventSender d = some m.sender ∧
           m.timestamp > t - 10000 ∧ m.isSystem = false)) →
       isolationBlocked active d = false →
       (remoteInsert t fresh active d msgs chats).2 =
         moveChatToFront cid (d.createdAt.getD t) chats) := by
  obtain ⟨f, rest, hext, hfid, hperm⟩ := extractChat_spec cid chats hmem
  have hmove : moveChatToFront cid ts chats = { f with lastMessageAt := some ts } :: rest := by
    simp [moveChatToFront, hext]
  have hids : (moveChatToFront cid ts chats).map Chat.id = cid :: rest.map Chat.id := by
    rw [hmove]
    simp [hfid]
  have hpermIds : ((moveChatToFront cid ts chats).map Chat.id).Perm (chats.map Chat.id) := by
    rw [hids]
    have := (hperm.map Chat.id).symm
    simpa [hfid] using this
  refine ⟨hpermIds, ?_, ?_, ?_, ?_⟩
  · rw [hmove]
    simp [hfid]
  · intro hcount
    rw [hpermIds.count_eq]
    exact hcount
  · intro u now td nd text replyToId msgs htext
    simp [sendMessage, addMessage, htext, effectiveUsername_ne_empty u]
  · intro t fresh active d msgs hchat hid hno hiso
    have hidany := idDedup_eq_false d msgs hid
    have hdupany := contentDup_any_eq_false t d msgs hno
    simp [remoteInsert, hidany, hdupany, hiso, hchat, mkRemoteMessage]

/-- Directory fixtures of the C8 witness. -/
def chatA : Chat := { id := "A", name := "Chat A" }

def chatB : Chat := { id := "B", name := "Chat B" }

/-- Witness for C8: moving `"B"` to the front of `[A, B]` keeps both ids
(as a permutation), puts `"B"` first, and keeps it unduplicated. -/
theorem c8_directory_reordering_witness :
    ((moveChatToFront "B" 99 [chatA, chatB]).map Chat.id).Perm ([chatA, chatB].map Chat.id) ∧
    ((moveChatToFront "B" 99 [chatA, chatB]).head?).map Chat.id = some "B" ∧
    (([chatA, chatB].map Chat.id).count "B" = 1 →
      ((moveChatToFront "B" 99 [chatA, chatB]).map Chat.id).count "B" = 1) :=
  ⟨(c8_directory_reordering "B" 99 [chatA, chatB] ⟨chatB, by decide, rfl⟩).1,
   (c8_directory_reordering "B" 99 [chatA, chatB] ⟨chatB, by decide, rfl⟩).2.1,
   (c8_directory_reordering "B" 99 [chatA, chatB] ⟨chatB, by decide, rfl⟩).2.2.1⟩

/-- Looking up the first appended position after an append. -/
theorem getElem?_append_cons (l : List Message) (a : Message) (r : List Message) :
    (l ++ a :: r)[l.length]? = some a := by
  rw [List.getElem?_append_right (le_refl _)]
  simp

/-- The remote-insert step never modifies an entry already in the log:
every pre-existing position is preserved verbatim. -/
theorem remoteInsert_getElem?_preserved (t : Int) (fresh : String) (active : Option String)
    (d : MessageEvent) (msgs : List Message) (chats : List Chat) (i : Nat) (m : Message)
    (hm : msgs[i]? = some m) :
    (remoteInsert t fresh active d msgs chats).1[i]? = some m := by
  cases hb1 : (match d.id with
    | some j => msgs.any (fun x => x.id == j)
    | none => false) with
  | true => simp [remoteInsert, hb1, hm]
  | false =>
    cases hb2 : msgs.any (fun x =>
        x.text == d.text
        && (match eventSender d with
            | some s => x.sender == s
            | none => false)
        && decide (x.timestamp > t - 10000)
        && !x.isSystem) with
    | true => simp [remoteInsert, hb1, hb2, hm]
    | false =>
      cases hb3 : isolationBlocked active d with
      | true => simp [remoteInsert, hb1, hb2, hb3, hm]
      | false =>
        obtain ⟨hlt, -⟩ := List.getElem?_eq_some.mp hm
        have happ : (msgs ++ [mkRemoteMessage t fresh d])[i]? = some m := by
          rw [List.getElem?_append, if_pos hlt]
          exact hm
        simp [remoteInsert, hb1, hb2, hb3, happ]

/-- The history row of the C9 counterexample: stored under the sender
name `"alice"` while the current display name is `"Alice"`. -/
def c9Db : DbMessage := { id := "h1", username := "alice", content := "hi", createdAt := 1 }

/-- Counterexample to C9 as stated: after a history load, the log holds
a non-system entry whose own-message flag is `false` although its
sender equals the current display name case-insensitively — `loadHistory`
compares the raw strings exactly. -/
theorem c9_isOwn_flag_counterexample :
    (applyHistoryResult "Alice" [c9Db] []).map
      (fun m => (m.isSystem, m.isMe, normalizeName m.sender == normalizeName "Alice")) =
    [(false, false, true)] := by decide

/-- C9 (amended): an optimistic insert always flags its entry as own
(with the effective username as sender); a remote insert always flags
its entry as not-own regardless of sender; a history load flags an
entry as own exactly when the stored sender equals the current display
name by exact, case- and whitespace-sensitive comparison. -/
theorem c9_isOwn_flag_amended :
    (∀ (demo connected : Bool) (u : String) (active : Option String) (now : Int)
       (td nd : List (Fin 36)) (text : String) (replyToId : Option String)
       (msgs : List Message) (chats : List Chat),
       jsTrim text ≠ "" →
       (sendMessage demo connected u active now td nd text replyToId msgs chats).1[msgs.length]? =
         some (optimisticMessage (genOptimisticId td) now (jsTrim text)
                 (effectiveUsername u) true false replyToId)) ∧
    (∀ (t : Int) (fresh : String) (d : MessageEvent), (mkRemoteMessage t fresh d).isMe = false) ∧
    (∀ (u : String) (dbm : DbMessage), (dbToMessage u dbm).isMe = (dbm.username == u)) := by
  refine ⟨?_, fun t fresh d => rfl, fun u dbm => rfl⟩
  intro demo connected u active now td nd text replyToId msgs chats htext
  cases demo with
  | true => simp [sendMessage, addMessage, htext, getElem?_append_cons]
  | false =>
    cases connected with
    | true =>
      simp [sendMessage, addMessage, htext, effectiveUsername_ne_empty u, getElem?_append_cons]
    | false =>
      have hres : (sendMessage false false u active now td nd text replyToId msgs chats).1 =
          msgs ++ optimisticMessage (genOptimisticId td) now (jsTrim text)
              (effectiveUsername u) true false replyToId ::
            [systemNotice nd now "Message not sent: Disconnected"] := by
        simp [sendMessage, addMessage, htext]
      rw [hres, getElem?_append_cons]

/-- Witness for the amended C9 at concrete inputs. -/
theorem c9_isOwn_flag_witness :
    (sendMessage true false "alice" none 7 [] [] "hi" none [] []).1[(0 : Nat)]? =
      some (optimisticMessage (genOptimisticId []) 7 (jsTrim "hi")
              (effectiveUsername "alice") true false none) ∧
    (mkRemoteMessage 7 "f" evSrv7).isMe = false ∧
    (dbToMessage "Alice" c9Db).isMe = (c9Db.username == "Alice") :=
  ⟨c9_isOwn_flag_amended.1 true false "alice" none 7 [] [] "hi" none [] [] (by decide),
   c9_isOwn_flag_amended.2.1 7 "f" evSrv7,
   c9_isOwn_flag_amended.2.2 "Alice" c9Db⟩

/-- No base-36 digit prints as a hyphen. -/
theorem base36Char_ne_hyphen : ∀ dg : Fin 36, base36Char dg ≠ '-' := by decide

/-- C10: locally generated optimistic ids contain no hyphen; the
tokenless fallback reconciliation only ever rewrites entries whose id
contains no hyphen; and, as long as the event's correlation token (if
any) is itself hyphen-free, an entry whose id already carries a
hyphen-containing server id is left verbatim by the whole handler. -/
theorem c10_optimistic_id_no_hyphen :
    (∀ digits : List (Fin 36), strContains (genOptimisticId digits) '-' = false) ∧
    (∀ (u : String) (d : MessageEvent) (m : Message),
       d.tempId = none → echoMatches (isFromMe u d) d m = true →
       strContains m.id '-' = false) ∧
    (∀ (u : String) (active : Option String) (t : Int) (fresh : String)
       (d : MessageEvent) (msgs : List Message) (chats : List Chat) (i : Nat) (m : Message),
       (∀ tok, d.tempId = some tok → strContains tok '-' = false) →
       msgs[i]? = some m → strContains m.id '-' = true →
       (handleMessage u active t fresh d msgs chats).1[i]? = some m) := by
  refine ⟨?_, ?_, ?_⟩
  · intro digits
    cases digits with
    | nil => rfl
    | cons a as =>
      suffices hmem : '-' ∉ (mathRandomChars (a :: as)).drop 7 by
        simpa [strContains, genOptimisticId] using hmem
      intro hdrop
      have hfull := List.mem_of_mem_drop hdrop
      simp only [mathRandomChars, List.mem_cons, List.mem_map] at hfull
      rcases hfull with h0 | hdot | ⟨dg, _, hdg⟩
      · cases h0
      · cases hdot
      · exact base36Char_ne_hyphen dg hdg
  · intro u d m htemp hmatch
    simp only [echoMatches, htemp, Bool.false_or, Bool.and_eq_true,
      Bool.not_eq_true'] at hmatch
    exact hmatch.2
  · intro u active t fresh d msgs chats i m htok hm hhyph
    have hnomatch : echoMatches (isFromMe u d) d m = false := by
      cases ht : d.tempId with
      | none => simp [echoMatches, ht, hhyph]
      | some tok =>
        have htokh := htok tok ht
        simp only [echoMatches, ht, hhyph, Bool.not_true, Bool.and_false,
          Bool.or_false, beq_eq_false_iff_ne, ne_eq]
        intro heq
        rw [heq, htokh] at hhyph
        cases hhyph
    have hmap : (msgs.map (fun x =>
        if echoMatches (isFromMe u d) d x then applyEcho d x else x))[i]? = some m := by
      simp [List.getElem?_map, hm, hnomatch]
    cases hbiso : isolationBlocked active d with
    | true => simp [handleMessage, hbiso, hm]
    | false =>
      cases ht : d.tempId with
      | some tok =>
        by_cases hany : ∃ x ∈ msgs, echoMatches (isFromMe u d) d x = true
        · have hres : handleMessage u active t fresh d msgs chats =
              (msgs.map (fun x =>
                if echoMatches (isFromMe u d) d x then applyEcho d x else x), chats) := by
            simp [handleMessage, hbiso, ht, hany]
          rw [hres]
          exact hmap
        · have hres : handleMessage u active t fresh d msgs chats =
              remoteInsert t fresh active d
                (msgs.map (fun x =>
                  if echoMatches (isFromMe u d) d x then applyEcho d x else x)) chats := by
            simp [handleMessage, hbiso, ht, hany]
          rw [hres]
          exact remoteInsert_getElem?_preserved _ _ _ _ _ _ _ _ hmap
      | none =>
        cases hf : isFromMe u d with
        | false =>
          have hres : handleMessage u active t fresh d msgs chats =
              remoteInsert t fresh active d msgs chats := by
            simp [handleMessage, hbiso, ht, hf]
          rw [hres]
          exact remoteInsert_getElem?_preserved _ _ _ _ _ _ _ _ hm
        | true =>
          rw [hf] at hmap
          by_cases hany : ∃ x ∈ msgs, echoMatches true d x = true
          · have hres : handleMessage u active t fresh d msgs chats =
                (msgs.map (fun x =>
                  if echoMatches true d x then applyEcho d x else x), chats) := by
              simp [handleMessage, hbiso, ht, hf, hany]
            rw [hres]
            exact hmap
          · have hres : handleMessage u active t fresh d msgs chats =
                remoteInsert t fresh active d
                  (msgs.map (fun x =>
                    if echoMatches true d x then applyEcho d x else x)) chats := by
              simp [handleMessage, hbiso, ht, hf, hany]
            rw [hres]
            exact remoteInsert_getElem?_preserved _ _ _ _ _ _ _ _ hmap

/-- An already-reconciled entry of the C10 witness, carrying a
hyphenated server id. -/
def msgHy : Message :=
  { id := "srv-5", text := "hi", sender := "alice", timestamp := 4, isMe := true, isSystem := false }

/-- A tokenless duplicate echo of the C10 witness. -/
def evHy : MessageEvent := { id := some "srv-6", user := some "alice", text := "hi" }

/-- Witness for C10: a freshly generated id is hyphen-free, and the
tokenless echo leaves the hyphen-id entry verbatim. -/
theorem c10_optimistic_id_no_hyphen_witness :
    strContains (genOptimisticId [10, 11, 12, 13, 14, 15, 16, 17]) '-' = false ∧
    (handleMessage "alice" none 50 "f5" evHy [msgHy] []).1[(0 : Nat)]? = some msgHy :=
  ⟨c10_optimistic_id_no_hyphen.1 [10, 11, 12, 13, 14, 15, 16, 17],
   c10_optimistic_id_no_hyphen.2.2 "alice" none 50 "f5" evHy [msgHy] [] 0 msgHy
     (by intro tok htok; cases htok) (by decide) (by decide)⟩

end ChatClient
